import Mathlib

/-!
Shallow embedding of the order-attribution webhook (webhook.py) for
verification of its natural-language specification.

The embedding models:
* `clean_phone`            — `NetSuiteService._clean_phone` (webhook.py lines 111-116)
* `search_contact_by_email_and_phone` — lines 71-109
* `_search_customer_perfect_match` / `_search_customer_email_only` — the
  SuiteQL queries of lines 118-167, modelled as filters over a customer table
* `_execute_search_query`  — lines 169-220
* `get_employee_name`      — lines 222-259
* `get_order_details`      — lines 22-50
* `send_to_sheets`         — lines 286-305
* `get_bigcommerce_service_by_store_name` — lines 307-328
* `process_klaviyo_order`  — lines 330-397

External HTTP traffic is modelled by explicit world records: the CRM is a list
of customer rows together with per-query transport outcomes, the
order-management API is a fetch oracle, and the spreadsheet endpoint is an
outcome value.  Python falsy tests on optional strings are modelled by
`optTruthy` (a value is truthy when it is present and non-empty).
-/

/-- Python truthiness of an optional string: `None` and the empty string are
falsy, every other string is truthy. -/
def optTruthy : Option String → Bool
  | some s => s != ""
  | none => false

/-- Python `a or b` on optional strings: returns `a` when it is truthy,
otherwise `b`. -/
def pyOr (a b : Option String) : Option String :=
  if optTruthy a then a else b

/-- Python `s or t` on plain strings: returns `s` unless it is empty. -/
def pyOrStr (s t : String) : String :=
  if s = "" then t else s

/-- Python `str.isdigit` restricted to the characters occurring here: true on
non-empty strings all of whose characters are digits. -/
def pyIsDigit (s : String) : Bool :=
  s != "" && s.data.all Char.isDigit

/-- Python `str.upper`, character by character (the emails here are ASCII). -/
def pyUpper (s : String) : String :=
  ⟨s.data.map Char.toUpper⟩

/-- Python `str.strip`: drop whitespace from both ends. -/
def pyStrip (s : String) : String :=
  ⟨((s.data.dropWhile Char.isWhitespace).reverse.dropWhile Char.isWhitespace).reverse⟩

/-- Lexicographic order on character lists, modelling SQL string comparison
for the ORDER BY clauses. -/
def charListLt : List Char → List Char → Bool
  | [], [] => false
  | [], _ :: _ => true
  | _ :: _, [] => false
  | a :: as, b :: bs => if a < b then true else if b < a then false else charListLt as bs

/-- Lexicographic string comparison used by the ORDER BY model. -/
def strLt (a b : String) : Bool :=
  charListLt a.data b.data

/-- Result of `re.sub` with the source's pattern.  The source (line 116) uses
the raw-string pattern consisting of two backslashes followed by `D`, which as
a regular expression matches the literal two-character sequence backslash-`D`
(not the non-digit class).  `re.sub` scans left to right, removing each
non-overlapping occurrence of that two-character sequence. -/
def removeBackslashD : List Char → List Char
  | [] => []
  | [c] => [c]
  | c :: d :: rest =>
    if c = '\\' ∧ d = 'D' then removeBackslashD rest
    else c :: removeBackslashD (d :: rest)

/-- String form of `removeBackslashD`: what the source's `re.sub` call
actually computes on a phone string. -/
def cleanPhoneStr (s : String) : String :=
  ⟨removeBackslashD s.data⟩

/-- Digit-only substring of a string, preserving order.  This is the
normalization the specification describes in section 4.1 (and what the SuiteQL
`REGEXP_REPLACE(..., '[^0-9]', '')` of line 135 computes on the CRM side). -/
def digitsOnly (s : String) : String :=
  ⟨s.data.filter Char.isDigit⟩

/-- `NetSuiteService._clean_phone` (webhook.py lines 111-116): falsy input
maps to `None`, otherwise the `re.sub` result.  The call site at line 74
(`self._clean_phone(phone) if phone else None`) composes to the same
function. -/
def clean_phone : Option String → Option String
  | none => none
  | some s => if s = "" then none else some (cleanPhoneStr s)

/-- Removing the backslash-`D` sequences never touches a digit, so the
digit-only substring is unchanged. -/
theorem removeBackslashD_filter_isDigit :
    ∀ l : List Char, (removeBackslashD l).filter Char.isDigit = l.filter Char.isDigit
  | [] => rfl
  | [_] => rfl
  | c :: d :: rest => by
    by_cases h : c = '\\' ∧ d = 'D'
    · obtain ⟨hc, hd⟩ := h
      subst hc; subst hd
      rw [show removeBackslashD ('\\' :: 'D' :: rest) = removeBackslashD rest from by
        simp [removeBackslashD]]
      rw [removeBackslashD_filter_isDigit rest]
      simp [List.filter_cons]
    · rw [show removeBackslashD (c :: d :: rest) = c :: removeBackslashD (d :: rest) from by
        simp [removeBackslashD, h]]
      simp only [List.filter_cons, removeBackslashD_filter_isDigit (d :: rest)]

/-- The digit-only substring survives the source's cleaning unchanged. -/
theorem digitsOnly_cleanPhoneStr (s : String) :
    digitsOnly (cleanPhoneStr s) = digitsOnly s :=
  congrArg String.mk (removeBackslashD_filter_isDigit s.data)

/-- Row of the CRM `customer` table, with the columns the SuiteQL queries of
webhook.py select.  Nullable columns (`phone`, `last_contact_date`,
`salesrep`) are optional; the text columns no claim inspects are modelled as
plain strings.  The query's constant column `'customer' as record_type` is not
stored per row. -/
structure CustomerRow where
  id : String
  email : String
  phone : Option String
  entityid : String
  last_contact_date : Option String
  lastmodifieddate : String
  datecreated : String
  firstname : String
  lastname : String
  salesrep : Option String
deriving DecidableEq, Repr

/-- Row of the CRM `employee` table selected by `get_employee_name`. -/
structure EmployeeRow where
  id : String
  entityid : String
  firstname : String
  lastname : String
  email : String
deriving DecidableEq, Repr

/-- Outcome of one HTTP request to the CRM query endpoint: either a response
with a status code (items are those the CRM computed for the query; a non-200
response carries no usable items), or a raised transport exception. -/
inductive Transport where
  | ok
  | httpError (status : Nat)
  | exn (msg : String)
deriving DecidableEq, Repr

/-- Raw response a query sees under a given transport outcome: on `ok` a 200
response with the rows the query selects, on `httpError` that status with no
rows, on `exn` a raised exception carrying the message. -/
inductive QueryResp (α : Type) where
  | resp (status : Nat) (items : List α)
  | exn (msg : String)
deriving DecidableEq, Repr

/-- Network behaviour of one query: pairs a transport outcome with the rows
the CRM would select for it. -/
def runQuery {α : Type} (t : Transport) (rows : List α) : QueryResp α :=
  match t with
  | .ok => .resp 200 rows
  | .httpError s => .resp s []
  | .exn m => .exn m

/-- Transport outcomes on which the source's query helpers return no result:
a raised exception, or an HTTP status other than 200. -/
def failedTransport : Transport → Bool
  | .ok => false
  | .httpError s => s != 200
  | .exn _ => true

/-- WHERE clause of `_search_customer_perfect_match` (webhook.py lines
134-136): case-insensitive email equality, the CRM phone stripped to digits by
`REGEXP_REPLACE(NVL(phone, ''), '[^0-9]', '')` equal to the supplied cleaned
phone, and a non-null sales rep. -/
def perfectMatchWhere (email clean : String) (r : CustomerRow) : Bool :=
  (pyUpper r.email == pyUpper email) &&
  (digitsOnly (r.phone.getD "") == clean) &&
  r.salesrep.isSome

/-- WHERE clause of `_search_customer_email_only` (webhook.py lines 160-161):
case-insensitive email equality and a non-null sales rep. -/
def emailOnlyWhere (email : String) (r : CustomerRow) : Bool :=
  (pyUpper r.email == pyUpper email) && r.salesrep.isSome

/-- ORDER BY key of both customer queries (lines 138-139 and 163-164):
`last_contact_date` when non-null, else `lastmodifieddate`. -/
def orderKey (r : CustomerRow) : String :=
  r.last_contact_date.getD r.lastmodifieddate

/-- Insertion into a list kept in descending `orderKey` order. -/
def insertDesc (r : CustomerRow) : List CustomerRow → List CustomerRow
  | [] => [r]
  | x :: xs => if strLt (orderKey x) (orderKey r) then r :: x :: xs else x :: insertDesc r xs

/-- Descending sort by `orderKey`, modelling the queries' ORDER BY ... DESC. -/
def sortDesc : List CustomerRow → List CustomerRow
  | [] => []
  | r :: rs => insertDesc r (sortDesc rs)

/-- Rows the perfect-match query of lines 118-142 selects from the customer
table, in response order. -/
def search_customer_perfect_match_rows (db : List CustomerRow) (email clean : String) :
    List CustomerRow :=
  sortDesc (db.filter (perfectMatchWhere email clean))

/-- Rows the email-only query of lines 144-167 selects from the customer
table, in response order. -/
def search_customer_email_only_rows (db : List CustomerRow) (email : String) :
    List CustomerRow :=
  sortDesc (db.filter (emailOnlyWhere email))

/-- World of the employee lookup: the employee table and the transport outcome
of the lookup request. -/
structure EmpWorld where
  employees : List EmployeeRow
  transport : Transport
deriving DecidableEq, Repr

/-- `NetSuiteService.get_employee_name` (webhook.py lines 222-259): looks the
employee up by id; on a 200 response with items, the display name is first and
last name joined and stripped, falling back to `entityid` when that is empty;
every other outcome (no items, non-200 status, raised exception) degrades to
the placeholder string. -/
def get_employee_name (w : EmpWorld) (employee_id : String) : String :=
  match runQuery w.transport (w.employees.filter (fun e => e.id == employee_id)) with
  | .exn _ => "Employee ID: " ++ employee_id
  | .resp status items =>
    if status = 200 then
      match items with
      | employee :: _ =>
        let name := pyStrip (employee.firstname ++ " " ++ employee.lastname)
        if name = "" then employee.entityid else name
      | [] => "Employee ID: " ++ employee_id
    else "Employee ID: " ++ employee_id

/-- Dictionary `search_contact_by_email_and_phone` and its helpers return.
Keys that a given return statement omits (everything but `found`,
`manual_verification` and `review_reason` in the not-found results) are
modelled as `none`; `.get` on them yields Python `None`. -/
structure ContactResult where
  contact_id : Option String
  email : Option String
  phone : Option String
  sales_rep : Option String
  contact_date : Option String
  created_date : Option String
  name : Option String
  record_type : Option String
  found : Bool
  manual_verification : Bool
  review_reason : String
deriving DecidableEq, Repr

/-- Result dictionary `_execute_search_query` builds from the first returned
record (webhook.py lines 190-211), including the sales-rep resolution of lines
192-197: a truthy all-digit id is resolved through `get_employee_name`,
otherwise `sales_rep_id or 'Not Assigned'`. -/
def found_result (w : EmpWorld) (record : CustomerRow) (match_type : String) : ContactResult :=
  { contact_id := some record.id
    email := some record.email
    phone := record.phone
    sales_rep := some
      (match record.salesrep with
       | some sid =>
         if pyIsDigit sid then get_employee_name w sid
         else if sid = "" then "Not Assigned" else sid
       | none => "Not Assigned")
    contact_date := pyOr record.last_contact_date (some record.lastmodifieddate)
    created_date := some record.datecreated
    name := some (pyOrStr (pyStrip (record.firstname ++ " " ++ record.lastname)) record.entityid)
    record_type := some "customer"
    found := true
    manual_verification := false
    review_reason := match_type }

/-- `NetSuiteService._execute_search_query` (webhook.py lines 169-220): on a
200 response with at least one item, the first record becomes a found result;
an empty item list, a non-200 status, and a raised exception all yield
`None`. -/
def execute_search_query (w : EmpWorld) (q : QueryResp CustomerRow) (match_type : String) :
    Option ContactResult :=
  match q with
  | .exn _ => none
  | .resp status items =>
    if status = 200 then
      match items with
      | record :: _ => some (found_result w record match_type)
      | [] => none
    else none

/-- World the contact search runs against: the customer table, the transport
outcomes of the two customer queries, and the employee-lookup world. -/
structure NSWorld where
  db : List CustomerRow
  perfectT : Transport
  emailT : Transport
  emp : EmpWorld
deriving DecidableEq, Repr

/-- Lines 76-79 of webhook.py: the perfect-match attempt, made only when the
cleaned phone is truthy. -/
def perfect_attempt (w : NSWorld) (email : String) (cp : Option String) :
    Option ContactResult :=
  if optTruthy cp then
    execute_search_query w.emp
      (runQuery w.perfectT (search_customer_perfect_match_rows w.db email (cp.getD "")))
      "Perfect match"
  else none

/-- Line 81 of webhook.py: the email-only attempt. -/
def email_attempt (w : NSWorld) (email : String) : Option ContactResult :=
  execute_search_query w.emp
    (runQuery w.emailT (search_customer_email_only_rows w.db email))
    "Email match"

/-- Lines 83-93 of webhook.py: annotation of an email-only match with the
manual-verification flag and review reason, from the cleaned caller phone and
the record's phone. -/
def annotate_email_match (cp : Option String) (em : ContactResult) : ContactResult :=
  if optTruthy cp && optTruthy em.phone then
    if clean_phone em.phone ≠ cp then
      { em with manual_verification := true, review_reason := "Phone number mismatch" }
    else
      { em with manual_verification := false, review_reason := "Perfect match" }
  else
    { em with manual_verification := optTruthy cp
              review_reason :=
                if optTruthy cp then "Missing phone in NetSuite" else "No phone provided" }

/-- Dictionary of webhook.py lines 97-101, returned when neither query
produced a record. -/
def no_record_result : ContactResult :=
  { contact_id := none, email := none, phone := none, sales_rep := none
    contact_date := none, created_date := none, name := none, record_type := none
    found := false, manual_verification := true
    review_reason := "No NetSuite record found" }

/-- `NetSuiteService.search_contact_by_email_and_phone` (webhook.py lines
71-109): clean the phone, try the perfect match when the cleaned phone is
truthy, fall back to the email-only match annotated with flag and reason, and
report no record otherwise.  Every helper it calls catches its own
exceptions, so the function is total; the `Search error` branch of lines
103-109 is reachable only through an exception none of the modelled callees
raises. -/
def search_contact_by_email_and_phone (w : NSWorld) (email : String) (phone : Option String) :
    ContactResult :=
  match perfect_attempt w email (clean_phone phone) with
  | some r => r
  | none =>
    match email_attempt w email with
    | some em => annotate_email_match (clean_phone phone) em
    | none => no_record_result

/-- Billing sub-object of the order-management API's order JSON; fields may be
absent (absent and JSON-null are modelled alike, both defaulting through
`getD`). -/
structure BillingAddr where
  email : Option String
  first_name : Option String
  last_name : Option String
  phone : Option String
deriving DecidableEq, Repr

/-- Order JSON the order-management API returns, restricted to the fields
`get_order_details` reads. -/
structure OrderJson where
  id : String
  billing_address : Option BillingAddr
  date_created : Option String
  subtotal_ex_tax : Option String
  total_ex_tax : Option String
deriving DecidableEq, Repr

/-- Order dictionary `get_order_details` builds (webhook.py lines 38-46). -/
structure Order where
  id : String
  email : String
  customer_name : String
  phone : String
  order_date : Option String
  order_total : String
  store : String
deriving DecidableEq, Repr

/-- `BigCommerceService.get_order_details` (webhook.py lines 22-50): on a
successful response, extract the order fields (billing sub-object defaulted to
empty, string fields defaulted to the empty string, the order total taken from
`subtotal_ex_tax` falling back to `total_ex_tax` and then `'0.00'`); on a
request failure, log and re-raise the error. -/
def get_order_details (store_name : String) (fetched : Except String OrderJson) :
    Except String Order :=
  match fetched with
  | .error e => .error e
  | .ok data =>
    let billing := data.billing_address.getD ⟨none, none, none, none⟩
    .ok { id := data.id
          email := billing.email.getD ""
          customer_name :=
            pyStrip ((billing.first_name.getD "") ++ " " ++ (billing.last_name.getD ""))
          phone := billing.phone.getD ""
          order_date := data.date_created
          order_total := data.subtotal_ex_tax.getD (data.total_ex_tax.getD "0.00")
          store := store_name }

/-- Store configuration table of `get_bigcommerce_service_by_store_name`
(webhook.py lines 309-314): the four recognized store names with their
environment-variable keys for hash, access token and display name. -/
def store_configs : List (String × String × String × String) :=
  [("Wilson US", "BIGCOMMERCE_STORE1_HASH", "BIGCOMMERCE_STORE1_ACCESS_TOKEN",
      "BIGCOMMERCE_STORE1_NAME"),
   ("Signal US", "BIGCOMMERCE_STORE2_HASH", "BIGCOMMERCE_STORE2_ACCESS_TOKEN",
      "BIGCOMMERCE_STORE2_NAME"),
   ("Wilson CA", "BIGCOMMERCE_STORE3_HASH", "BIGCOMMERCE_STORE3_ACCESS_TOKEN",
      "BIGCOMMERCE_STORE3_NAME"),
   ("Signal CA", "BIGCOMMERCE_STORE4_HASH", "BIGCOMMERCE_STORE4_ACCESS_TOKEN",
      "BIGCOMMERCE_STORE4_NAME")]

/-- Service object `BigCommerceService.__init__` builds (webhook.py lines
15-20); the display name falls back to the store hash when falsy. -/
structure BCService where
  store_hash : String
  access_token : String
  store_name : String
deriving DecidableEq, Repr

/-- `get_bigcommerce_service_by_store_name` (webhook.py lines 307-328): an
unrecognized store name raises `Unknown store name: ...`; a recognized store
whose hash or token environment variable is falsy raises
`Missing configuration for store: ...`; otherwise the service is built.
Raised `ValueError`s are modelled as `Except.error` of their message. -/
def get_bigcommerce_service_by_store_name (env : String → Option String)
    (store_name : String) : Except String BCService :=
  match store_configs.lookup store_name with
  | none => .error ("Unknown store name: " ++ store_name)
  | some (hash_key, token_key, name_key) =>
    let store_hash := env hash_key
    let access_token := env token_key
    let store_display_name := env name_key
    if optTruthy store_hash = false ∨ optTruthy access_token = false then
      .error ("Missing configuration for store: " ++ store_name)
    else
      .ok { store_hash := store_hash.getD ""
            access_token := access_token.getD ""
            store_name :=
              if optTruthy store_display_name then store_display_name.getD ""
              else store_hash.getD "" }

/-- Outcome of the spreadsheet webhook call in `send_to_sheets`: no configured
endpoint (the simulation branch), a response with a status, or a raised
exception. -/
inductive SheetsOutcome where
  | noUrl
  | resp (status : Nat)
  | exn (msg : String)
deriving DecidableEq, Repr

/-- `send_to_sheets` (webhook.py lines 286-305): true when no endpoint is
configured (simulation) or the response status is 200; false on any other
status or a raised exception.  Never raises. -/
def send_to_sheets : SheetsOutcome → Bool
  | .noUrl => true
  | .resp status => status == 200
  | .exn _ => false

/-- Row written to the spreadsheet ledger (webhook.py lines 358-372). -/
structure SheetData where
  store : String
  order_id : String
  email : String
  customer_name : String
  phone : String
  order_date : String
  order_total : String
  sales_rep : String
  contact_date : String
  manual_verification : Bool
  review_reason : String
  record_type : String
  netsuite_phone : String
deriving DecidableEq, Repr

/-- Trigger payload field `data` of the Klaviyo webhook body. -/
structure KOrderInfo where
  order_id : Option String
  store : Option String
deriving DecidableEq, Repr

/-- Klaviyo webhook body, restricted to the `data` object
`process_klaviyo_order` reads; an absent `data` key defaults to an empty
dictionary. -/
structure KlaviyoPayload where
  data : Option KOrderInfo
deriving DecidableEq, Repr

/-- External world `process_klaviyo_order` runs against: the environment
variables, the order-fetch oracle (indexed by order id), the CRM world, the
spreadsheet outcome, and the date formatter.  The formatter
(`format_bigcommerce_date`, webhook.py lines 261-284) is kept as a world
parameter because it consults the host timezone database through `pytz`. -/
structure ProcWorld where
  env : String → Option String
  fetch : String → Except String OrderJson
  ns : NSWorld
  sheets : SheetsOutcome
  formatDate : Option String → String

/-- Observable external actions of one `process_klaviyo_order` run, in order:
the order-management fetch, the CRM contact search, and the ledger write
(recorded when `send_to_sheets` is invoked, whatever its outcome). -/
inductive Effect where
  | orderFetch (order_id : String)
  | crmSearch (email : String) (phone : String)
  | ledgerWrite (data : SheetData)
deriving DecidableEq, Repr

/-- Result value of `process_klaviyo_order`: an error dictionary paired with a
status code, the success dictionary (order id, sales rep, verification flag),
or the ignored dictionary (order id, reason). -/
inductive ProcResult where
  | err (msg : String) (status : Nat)
  | success (order_id : String) (sales_rep : String) (manual_verification : Bool)
  | ignored (order_id : String) (reason : String)
deriving DecidableEq, Repr

/-- Ledger row built at webhook.py lines 358-372 from the order and the
contact-match result (dictionary `.get` defaults applied to the optional
fields). -/
def mk_sheet_data (w : ProcWorld) (store_name : String) (od : Order) (cr : ContactResult) :
    SheetData :=
  { store := store_name
    order_id := od.id
    email := od.email
    customer_name := od.customer_name
    phone := od.phone
    order_date := w.formatDate od.order_date
    order_total := od.order_total
    sales_rep := cr.sales_rep.getD ""
    contact_date := cr.contact_date.getD ""
    manual_verification := cr.manual_verification
    review_reason := cr.review_reason
    record_type := cr.record_type.getD "unknown"
    netsuite_phone := cr.phone.getD "" }

/-- Sentinel test of webhook.py line 351: the attribution branch is taken only
when the sales rep is outside `['Not Assigned', 'NO OWNER', None, '']`. -/
def sentinelRep : Option String → Bool
  | none => true
  | some s => s == "Not Assigned" || s == "NO OWNER" || s == ""

/-- `process_klaviyo_order` (webhook.py lines 330-397): validate the payload
(400 errors, before any external call), resolve the store service and fetch
the order (raised errors caught by the enclosing handler as 500), search the
CRM, and either write the ledger row and report success (or a 500 when the
write fails) or report the order ignored.  The returned list records the
external actions taken, in order. -/
def process_klaviyo_order (w : ProcWorld) (kd : KlaviyoPayload) :
    ProcResult × List Effect :=
  let info := kd.data.getD ⟨none, none⟩
  if optTruthy info.order_id = false then
    (.err "No order ID found in Klaviyo data" 400, [])
  else if optTruthy info.store = false then
    (.err "No store name found in Klaviyo data" 400, [])
  else
    let order_id := info.order_id.getD ""
    let store_name := info.store.getD ""
    match get_bigcommerce_service_by_store_name w.env store_name with
    | .error e => (.err e 500, [])
    | .ok bigcommerce =>
      match get_order_details bigcommerce.store_name (w.fetch order_id) with
      | .error e => (.err e 500, [.orderFetch order_id])
      | .ok order_details =>
        let contact_result :=
          search_contact_by_email_and_phone w.ns order_details.email (some order_details.phone)
        let effs : List Effect :=
          [.orderFetch order_id, .crmSearch order_details.email order_details.phone]
        if contact_result.found && !(sentinelRep contact_result.sales_rep) then
          let sheet_data := mk_sheet_data w store_name order_details contact_result
          if send_to_sheets w.sheets then
            (.success order_id (contact_result.sales_rep.getD "")
               contact_result.manual_verification,
             effs ++ [.ledgerWrite sheet_data])
          else
            (.err "Failed to send to Google Sheets" 500, effs ++ [.ledgerWrite sheet_data])
        else
          (.ignored order_id contact_result.review_reason, effs)

/-- Every result `_execute_search_query` returns is a found record whose
review reason is the query's match type and whose verification flag is
clear. -/
theorem execute_search_query_some {w : EmpWorld} {q : QueryResp CustomerRow}
    {mt : String} {r : ContactResult} (h : execute_search_query w q mt = some r) :
    r.found = true ∧ r.manual_verification = false ∧ r.review_reason = mt := by
  cases q with
  | exn m => simp [execute_search_query] at h
  | resp status items =>
    simp only [execute_search_query] at h
    by_cases hs : status = 200
    · rw [if_pos hs] at h
      cases items with
      | nil => simp at h
      | cons record tail =>
        have h2 : some (found_result w record mt) = some r := h
        obtain rfl : found_result w record mt = r := Option.some.inj h2
        exact ⟨rfl, rfl, rfl⟩
    · rw [if_neg hs] at h
      simp at h

/-- A query over an empty row list never yields a record, whatever the
transport outcome. -/
theorem execute_search_query_nil (w : EmpWorld) (t : Transport) (mt : String) :
    execute_search_query w (runQuery t ([] : List CustomerRow)) mt = none := by
  cases t with
  | ok => rfl
  | httpError s =>
    simp only [runQuery, execute_search_query]
    split <;> rfl
  | exn m => rfl

/-- A query whose transport fails never yields a record, whatever the rows. -/
theorem execute_search_query_failed (w : EmpWorld) {t : Transport}
    (ht : failedTransport t = true) (rows : List CustomerRow) (mt : String) :
    execute_search_query w (runQuery t rows) mt = none := by
  cases t with
  | ok => exact absurd ht (by simp [failedTransport])
  | httpError s =>
    have hs : s ≠ 200 := by simpa [failedTransport] using ht
    simp only [runQuery, execute_search_query]
    rw [if_neg hs]
  | exn m => rfl

/-- A row the perfect-match WHERE clause accepts is also accepted by the
email-only WHERE clause. -/
theorem perfectMatchWhere_imp_emailOnlyWhere {email clean : String} {r : CustomerRow}
    (h : perfectMatchWhere email clean r = true) : emailOnlyWhere email r = true := by
  unfold perfectMatchWhere at h
  unfold emailOnlyWhere
  simp only [Bool.and_eq_true] at h ⊢
  exact ⟨h.1.1, h.2⟩

/-- Helper: a result of the perfect-match attempt is a found record flagged
`Perfect match` with the verification flag clear. -/
theorem perfect_attempt_some {w : NSWorld} {email : String} {cp : Option String}
    {r : ContactResult} (h : perfect_attempt w email cp = some r) :
    r.found = true ∧ r.manual_verification = false ∧ r.review_reason = "Perfect match" := by
  unfold perfect_attempt at h
  split at h
  · exact execute_search_query_some h
  · cases h

/-- Helper: a result of the email-only attempt is a found record flagged
`Email match` with the verification flag clear. -/
theorem email_attempt_some {w : NSWorld} {email : String} {r : ContactResult}
    (h : email_attempt w email = some r) :
    r.found = true ∧ r.manual_verification = false ∧ r.review_reason = "Email match" :=
  execute_search_query_some h

/-- Helper: annotation of an email-only match clears the verification flag
exactly when it labels the result `Perfect match` or `No phone provided`. -/
theorem annotate_email_match_mv_iff (cp : Option String) (em : ContactResult) :
    (annotate_email_match cp em).manual_verification = false ↔
      ((annotate_email_match cp em).review_reason = "Perfect match" ∨
       (annotate_email_match cp em).review_reason = "No phone provided") := by
  unfold annotate_email_match
  split
  · split
    · simp
    · simp
  · cases hcp : optTruthy cp
    · simp [hcp]
    · simp [hcp]

/-- Claim C1.  The claim says `_clean_phone` returns the digit-only substring
of its input.  It does not: the pattern in the source matches the literal
two-character sequence backslash-`D`, so on the phone string
`(555) 123-4567` the function returns its input unchanged instead of the
digit-only substring `5551234567`, while on `5\D55` it removes the
backslash-`D` pair.  The docstring (`Clean phone number for comparison`), the
digit-stripping `REGEXP_REPLACE(..., '[^0-9]', '')` applied to the CRM side of
the very comparison this value feeds, and spec section 4.1 all show the
intent; the doubled backslash in the regex is a slip. -/
theorem c1_clean_phone_keeps_nondigits :
    clean_phone (some "(555) 123-4567") = some "(555) 123-4567" ∧
    digitsOnly "(555) 123-4567" = "5551234567" ∧
    ("(555) 123-4567" : String) ≠ "5551234567" ∧
    clean_phone (some "5\\D55") = some "555" := by
  refine ⟨rfl, rfl, by decide, rfl⟩

/-- Claim C9.  `get_order_details` propagates an order-management API failure
to its caller unchanged (the source logs and re-raises), rather than
swallowing it or converting it into a result value. -/
theorem c9_order_fetch_propagates (store_name msg : String) :
    get_order_details store_name (Except.error msg) = Except.error msg := rfl

/-- Customer row used by the concrete counterexample worlds: a CRM contact
for `a@b.c` with an assigned sales rep. -/
def sampleRow : CustomerRow :=
  { id := "1", email := "a@b.c", phone := some "555-123-4567", entityid := "E1",
    last_contact_date := none, lastmodifieddate := "2024-01-01",
    datecreated := "2023-01-01", firstname := "Jane", lastname := "Doe",
    salesrep := some "Jane" }

/-- CRM world with `sampleRow` and healthy transports. -/
def sampleWorld : NSWorld :=
  { db := [sampleRow], perfectT := .ok, emailT := .ok
    emp := { employees := [], transport := .ok } }

/-- Claim C3 counterexample.  With a CRM record for `a@b.c` that carries the
phone `555-123-4567`, a search that supplies no phone returns
`manual_verification = false` with reason `No phone provided`, although the
CRM side's phone is present — so the flag is clear in a case that is neither
an exact email+phone match nor an email-only match with the phone missing on
both sides, contradicting the claim's only-if direction. -/
theorem c3_invariant_counterexample :
    (search_contact_by_email_and_phone sampleWorld "a@b.c" none).manual_verification
        = false ∧
    (search_contact_by_email_and_phone sampleWorld "a@b.c" none).review_reason
        = "No phone provided" ∧
    (search_contact_by_email_and_phone sampleWorld "a@b.c" none).phone
        = some "555-123-4567" := by
  refine ⟨rfl, rfl, rfl⟩

/-- Claim C3 as amended.  For every CRM world and every input, the matcher's
verification flag is clear exactly when the review reason is `Perfect match`
or `No phone provided`; in particular it is set for every reason indicating a
phone mismatch, a missing CRM phone, or no CRM record.  (The amendment: the
`No phone provided` outcome clears the flag whenever the caller supplied no
usable phone, regardless of whether the CRM record has one.) -/
theorem c3_manual_verification_invariant (w : NSWorld) (email : String)
    (phone : Option String) :
    (search_contact_by_email_and_phone w email phone).manual_verification = false ↔
      ((search_contact_by_email_and_phone w email phone).review_reason = "Perfect match" ∨
       (search_contact_by_email_and_phone w email phone).review_reason
           = "No phone provided") := by
  unfold search_contact_by_email_and_phone
  cases hpa : perfect_attempt w email (clean_phone phone) with
  | some r =>
    obtain ⟨hf, hmv, hrr⟩ := perfect_attempt_some hpa
    simp [hmv, hrr]
  | none =>
    cases hea : email_attempt w email with
    | some em => exact annotate_email_match_mv_iff (clean_phone phone) em
    | none => simp [no_record_result]

/-- Claim C4.  The claim says a CRM contact with case-insensitively equal
email, equal normalized (digit-only) phone, and a sales rep yields a
`Perfect match` with the verification flag clear.  Evaluating the code's
model at the failing input refutes this: the caller's phone
`(555) 123-4567` and the CRM phone `555-123-4567` have equal digit-only
normalizations, the emails are equal and the sales rep is present, yet the
matcher answers `Phone number mismatch` with the verification flag set,
because `_clean_phone` (claim C1's slip) leaves the caller's formatting in
place while the SuiteQL side is stripped to digits, so the perfect-match
query cannot hit and the fallback comparison fails too. -/
theorem c4_perfect_match_regression :
    digitsOnly "(555) 123-4567" = digitsOnly "555-123-4567" ∧
    pyUpper sampleRow.email = pyUpper "a@b.c" ∧
    sampleRow.salesrep.isSome = true ∧
    (search_contact_by_email_and_phone sampleWorld "a@b.c"
        (some "(555) 123-4567")).review_reason = "Phone number mismatch" ∧
    (search_contact_by_email_and_phone sampleWorld "a@b.c"
        (some "(555) 123-4567")).manual_verification = true := by
  refine ⟨rfl, rfl, rfl, rfl, rfl⟩

/-- Claim C6.  When no row of the customer table passes the email-only WHERE
clause (case-insensitive email equality with a non-null sales rep) — so
neither the perfect-match nor the email-only query can select anything — the
matcher returns the not-found result: `found = false`,
`manual_verification = true`, `review_reason = "No NetSuite record found"`.
This holds for every transport outcome. -/
theorem c6_no_record_found (w : NSWorld) (email : String) (phone : Option String)
    (h : w.db.all (fun r => !(emailOnlyWhere email r)) = true) :
    search_contact_by_email_and_phone w email phone = no_record_result := by
  have hmem : ∀ r ∈ w.db, emailOnlyWhere email r = false := by
    intro r hr
    have := (List.all_eq_true.mp h) r hr
    simpa using this
  have hefil : w.db.filter (emailOnlyWhere email) = [] := by
    rw [List.filter_eq_nil_iff]
    intro r hr
    simp [hmem r hr]
  have hpfil : ∀ clean, w.db.filter (perfectMatchWhere email clean) = [] := by
    intro clean
    rw [List.filter_eq_nil_iff]
    intro r hr
    intro hper
    have := perfectMatchWhere_imp_emailOnlyWhere hper
    rw [hmem r hr] at this
    cases this
  have hpa : perfect_attempt w email (clean_phone phone) = none := by
    unfold perfect_attempt search_customer_perfect_match_rows
    rw [hpfil]
    split
    · exact execute_search_query_nil _ _ _
    · rfl
  have hea : email_attempt w email = none := by
    unfold email_attempt search_customer_email_only_rows
    rw [hefil]
    exact execute_search_query_nil _ _ _
  unfold search_contact_by_email_and_phone
  rw [hpa, hea]

/-- Claim C6 witness: a CRM holding only a contact for another email yields
the not-found result for `a@b.c`. -/
theorem c6_no_record_found_witness :
    ((sampleWorld.db.all (fun r => !(emailOnlyWhere "x@y.z" r))) = true) ∧
    search_contact_by_email_and_phone sampleWorld "x@y.z" (some "123")
      = no_record_result :=
  ⟨by decide, c6_no_record_found sampleWorld "x@y.z" (some "123") (by decide)⟩

/-- CRM world whose two customer queries both fail in transport. -/
def downWorld : NSWorld :=
  { db := [sampleRow], perfectT := .exn "boom", emailT := .exn "boom"
    emp := { employees := [], transport := .ok } }

/-- Claim C7 counterexample.  When the CRM transport fails (here both queries
raise `boom`), the matcher does not produce the claimed
`Search error: <message>` reason: the query helper absorbs the failure into
`None`, so the search reports `No NetSuite record found` instead. -/
theorem c7_transport_counterexample :
    failedTransport downWorld.perfectT = true ∧
    failedTransport downWorld.emailT = true ∧
    (search_contact_by_email_and_phone downWorld "a@b.c" (some "123")).review_reason
        = "No NetSuite record found" ∧
    (search_contact_by_email_and_phone downWorld "a@b.c" (some "123")).review_reason
        ≠ "Search error: boom" := by
  refine ⟨rfl, rfl, rfl, by decide⟩

/-- Claim C7 as amended.  The matcher never raises past its boundary: it is a
total function, and a transport or query failure in both customer queries
(raised exception or non-200 status) is absorbed inside
`_execute_search_query` and surfaces as the not-found result — `found =
false`, `manual_verification = true`, `review_reason = "No NetSuite record
found"` — not as a `Search error: <message>` result, which is reserved for
exceptions outside the query helpers. -/
theorem c7_transport_absorbed (w : NSWorld) (email : String) (phone : Option String)
    (hp : failedTransport w.perfectT = true) (he : failedTransport w.emailT = true) :
    search_contact_by_email_and_phone w email phone = no_record_result := by
  have hpa : perfect_attempt w email (clean_phone phone) = none := by
    unfold perfect_attempt
    split
    · exact execute_search_query_failed _ hp _ _
    · rfl
  have hea : email_attempt w email = none := by
    unfold email_attempt
    exact execute_search_query_failed _ he _ _
  unfold search_contact_by_email_and_phone
  rw [hpa, hea]

/-- Claim C7 witness: with both transports raising, the search returns the
not-found result. -/
theorem c7_transport_absorbed_witness :
    failedTransport downWorld.perfectT = true ∧
    failedTransport downWorld.emailT = true ∧
    search_contact_by_email_and_phone downWorld "x@y.z" none = no_record_result :=
  ⟨rfl, rfl, c7_transport_absorbed downWorld "x@y.z" none rfl rfl⟩

/-- Helper: annotation branch of webhook.py lines 85-87 (both phones truthy
after cleaning and unequal). -/
theorem annotate_email_match_mismatch {cp : Option String} {em : ContactResult}
    (h1 : optTruthy cp = true) (h2 : optTruthy em.phone = true)
    (h3 : clean_phone em.phone ≠ cp) :
    annotate_email_match cp em =
      { em with manual_verification := true, review_reason := "Phone number mismatch" } := by
  unfold annotate_email_match
  rw [h1, h2]
  simp only [Bool.and_self, if_true]
  rw [if_pos h3]

/-- Helper: annotation branch of webhook.py lines 88-90 (both phones truthy
after cleaning and equal). -/
theorem annotate_email_match_equal {cp : Option String} {em : ContactResult}
    (h1 : optTruthy cp = true) (h2 : optTruthy em.phone = true)
    (h3 : clean_phone em.phone = cp) :
    annotate_email_match cp em =
      { em with manual_verification := false, review_reason := "Perfect match" } := by
  unfold annotate_email_match
  rw [h1, h2]
  simp only [Bool.and_self, if_true]
  rw [if_neg (by simp [h3])]

/-- Helper: annotation branch of webhook.py lines 91-93 with a truthy cleaned
caller phone and a falsy record phone. -/
theorem annotate_email_match_missing {cp : Option String} {em : ContactResult}
    (h1 : optTruthy cp = true) (h2 : optTruthy em.phone = false) :
    annotate_email_match cp em =
      { em with manual_verification := true, review_reason := "Missing phone in NetSuite" } := by
  unfold annotate_email_match
  rw [h1, h2]
  simp

/-- Helper: annotation branch of webhook.py lines 91-93 with a falsy cleaned
caller phone. -/
theorem annotate_email_match_nophone {cp : Option String} {em : ContactResult}
    (h1 : optTruthy cp = false) :
    annotate_email_match cp em =
      { em with manual_verification := false, review_reason := "No phone provided" } := by
  unfold annotate_email_match
  rw [h1]
  simp

/-- Helper: a truthy cleaned phone comes from a supplied phone string whose
cleaned form is non-empty. -/
theorem optTruthy_clean_phone {phone : Option String}
    (h : optTruthy (clean_phone phone) = true) :
    ∃ p, phone = some p ∧ p ≠ "" ∧ cleanPhoneStr p ≠ "" := by
  cases phone with
  | none => simp [clean_phone, optTruthy] at h
  | some p =>
    by_cases hpe : p = ""
    · subst hpe
      simp [clean_phone, optTruthy] at h
    · refine ⟨p, rfl, hpe, ?_⟩
      simpa [clean_phone, hpe, optTruthy] using h

/-- CRM contact for `a@b.c` with no phone on file. -/
def noPhoneRow : CustomerRow :=
  { id := "2", email := "a@b.c", phone := none, entityid := "E2",
    last_contact_date := none, lastmodifieddate := "2024-01-01",
    datecreated := "2023-01-01", firstname := "Jane", lastname := "Doe",
    salesrep := some "Jane" }

/-- CRM world holding only `noPhoneRow`, healthy transports. -/
def noPhoneWorld : NSWorld :=
  { db := [noPhoneRow], perfectT := .ok, emailT := .ok
    emp := { employees := [], transport := .ok } }

/-- Claim C5 counterexample.  The caller supplies the (non-empty) phone
string consisting of a backslash followed by `D`, the email-only record lacks
a phone, and the claim demands `manual_verification = true` with reason
`Missing phone in NetSuite`; but `_clean_phone` maps that string to the empty
string, which is falsy, so the code takes the no-phone branch and returns
`manual_verification = false` with reason `No phone provided`. -/
theorem c5_email_match_counterexample :
    ("\\D" : String) ≠ "" ∧
    noPhoneRow.phone = none ∧
    (search_contact_by_email_and_phone noPhoneWorld "a@b.c" (some "\\D")).found = true ∧
    (search_contact_by_email_and_phone noPhoneWorld "a@b.c"
        (some "\\D")).manual_verification = false ∧
    (search_contact_by_email_and_phone noPhoneWorld "a@b.c" (some "\\D")).review_reason
        = "No phone provided" := by
  refine ⟨by decide, rfl, rfl, rfl, rfl⟩

/-- Claim C5 as amended.  For an email-only match (the email-only query
returns a first record `em_row` over a healthy transport, and no row passes
the perfect-match WHERE clause): if the caller supplied a phone whose cleaned
form is non-empty and the record has a phone and the two phones differ after
digit-only normalization, the result is a found record with
`manual_verification = true` and reason `Phone number mismatch`; if the
caller supplied a phone whose cleaned form is non-empty but the record's
phone is absent or empty, `manual_verification = true` with reason
`Missing phone in NetSuite`; if the caller supplied no phone — or one whose
cleaned form is empty — `manual_verification = false` with reason
`No phone provided`.  (The amendment: the caller-supplied-phone cases require
the cleaned form to be non-empty, as the counterexample forces.) -/
theorem c5_email_match_rules (w : NSWorld) (email : String) (phone : Option String)
    (em_row : CustomerRow) (rest : List CustomerRow)
    (hT : w.emailT = Transport.ok)
    (hsort : search_customer_email_only_rows w.db email = em_row :: rest)
    (hperf : w.db.filter (perfectMatchWhere email ((clean_phone phone).getD "")) = []) :
    (optTruthy (clean_phone phone) = true → optTruthy em_row.phone = true →
       digitsOnly (em_row.phone.getD "") ≠ digitsOnly (phone.getD "") →
       (search_contact_by_email_and_phone w email phone).found = true ∧
       (search_contact_by_email_and_phone w email phone).manual_verification = true ∧
       (search_contact_by_email_and_phone w email phone).review_reason
           = "Phone number mismatch") ∧
    (optTruthy (clean_phone phone) = true → optTruthy em_row.phone = false →
       (search_contact_by_email_and_phone w email phone).found = true ∧
       (search_contact_by_email_and_phone w email phone).manual_verification = true ∧
       (search_contact_by_email_and_phone w email phone).review_reason
           = "Missing phone in NetSuite") ∧
    (optTruthy (clean_phone phone) = false →
       (search_contact_by_email_and_phone w email phone).found = true ∧
       (search_contact_by_email_and_phone w email phone).manual_verification = false ∧
       (search_contact_by_email_and_phone w email phone).review_reason
           = "No phone provided") := by
  have hpa : perfect_attempt w email (clean_phone phone) = none := by
    unfold perfect_attempt search_customer_perfect_match_rows
    rw [hperf]
    split
    · exact execute_search_query_nil _ _ _
    · rfl
  have hea : email_attempt w email = some (found_result w.emp em_row "Email match") := by
    unfold email_attempt
    rw [hT, hsort]
    rfl
  have hsearch : search_contact_by_email_and_phone w email phone
      = annotate_email_match (clean_phone phone) (found_result w.emp em_row "Email match") := by
    unfold search_contact_by_email_and_phone
    rw [hpa, hea]
  have hphone : (found_result w.emp em_row "Email match").phone = em_row.phone := rfl
  refine ⟨?_, ?_, ?_⟩
  · intro h1 h2 h3
    obtain ⟨p, hp, hpe, hcpe⟩ := optTruthy_clean_phone h1
    have hph : ∃ ph, em_row.phone = some ph ∧ ph ≠ "" := by
      cases hem : em_row.phone with
      | none => rw [hem] at h2; simp [optTruthy] at h2
      | some ph =>
        rw [hem] at h2
        exact ⟨ph, rfl, by simpa [optTruthy] using h2⟩
    obtain ⟨ph, hemp, hphe⟩ := hph
    have hneq : clean_phone em_row.phone ≠ clean_phone phone := by
      rw [hemp, hp]
      simp only [clean_phone, if_neg hphe, if_neg hpe, ne_eq, Option.some.injEq]
      intro hcontra
      apply h3
      have hd := congrArg digitsOnly hcontra
      rw [digitsOnly_cleanPhoneStr, digitsOnly_cleanPhoneStr] at hd
      rw [hemp, hp]
      simpa using hd
    rw [hsearch,
      annotate_email_match_mismatch h1 (by rw [hphone]; exact h2)
        (by rw [hphone]; exact hneq)]
    exact ⟨rfl, rfl, rfl⟩
  · intro h1 h2
    rw [hsearch, annotate_email_match_missing h1 (by rw [hphone]; exact h2)]
    exact ⟨rfl, rfl, rfl⟩
  · intro h1
    rw [hsearch, annotate_email_match_nophone h1]
    exact ⟨rfl, rfl, rfl⟩

/-- Claim C5 witness: with the CRM contact `sampleRow` (phone
`555-123-4567`) and caller phone `666`, the email-only match is flagged
`Phone number mismatch` with the verification flag set. -/
theorem c5_email_match_rules_witness :
    search_customer_email_only_rows sampleWorld.db "a@b.c" = [sampleRow] ∧
    sampleWorld.db.filter
        (perfectMatchWhere "a@b.c" ((clean_phone (some "666")).getD "")) = [] ∧
    (search_contact_by_email_and_phone sampleWorld "a@b.c"
        (some "666")).manual_verification = true ∧
    (search_contact_by_email_and_phone sampleWorld "a@b.c" (some "666")).review_reason
        = "Phone number mismatch" := by
  have h := (c5_email_match_rules sampleWorld "a@b.c" (some "666") sampleRow []
    rfl rfl rfl).1 rfl rfl (by decide)
  exact ⟨rfl, rfl, h.2.1, h.2.2⟩

/-- Claim C10.  When the caller supplied a phone (with non-empty cleaned
form, so the perfect-match query ran), that query produced no result, and the
email-only record's phone equals the caller's phone after the code's
cleaning, the fallback itself returns a `Perfect match` with the verification
flag clear (webhook.py lines 88-90). -/
theorem c10_fallback_perfect_match (w : NSWorld) (email p : String)
    (em : ContactResult) (ph : String)
    (hp : p ≠ "") (hcp : cleanPhoneStr p ≠ "")
    (hperf : perfect_attempt w email (clean_phone (some p)) = none)
    (hem : email_attempt w email = some em)
    (hph : em.phone = some ph)
    (heq : cleanPhoneStr ph = cleanPhoneStr p) :
    (search_contact_by_email_and_phone w email (some p)).found = true ∧
    (search_contact_by_email_and_phone w email (some p)).manual_verification = false ∧
    (search_contact_by_email_and_phone w email (some p)).review_reason
        = "Perfect match" := by
  have hphe : ph ≠ "" := by
    intro h
    subst h
    exact hcp heq.symm
  have hsearch : search_contact_by_email_and_phone w email (some p)
      = annotate_email_match (clean_phone (some p)) em := by
    unfold search_contact_by_email_and_phone
    rw [hperf, hem]
  have h1 : optTruthy (clean_phone (some p)) = true := by
    simp [clean_phone, hp, optTruthy, hcp]
  have h2 : optTruthy em.phone = true := by
    rw [hph]
    simp [optTruthy, hphe]
  have h3 : clean_phone em.phone = clean_phone (some p) := by
    rw [hph]
    simp [clean_phone, hphe, hp, heq]
  rw [hsearch, annotate_email_match_equal h1 h2 h3]
  exact ⟨(email_attempt_some hem).1, rfl, rfl⟩

/-- CRM contact whose stored phone contains a backslash-`D` pair that the
cleaning removes. -/
def fallbackRow : CustomerRow :=
  { id := "3", email := "a@b.c", phone := some "12\\D3", entityid := "E3",
    last_contact_date := none, lastmodifieddate := "2024-01-01",
    datecreated := "2023-01-01", firstname := "Jane", lastname := "Doe",
    salesrep := some "Jane" }

/-- CRM world for the C10 witness: the perfect-match query's transport is
down, the email-only query succeeds. -/
def fallbackWorld : NSWorld :=
  { db := [fallbackRow], perfectT := .exn "down", emailT := .ok
    emp := { employees := [], transport := .ok } }

/-- Claim C10 witness: caller phone and CRM phone clean to the same string
`123`, the perfect-match query produces nothing, and the fallback labels the
result `Perfect match` with the flag clear. -/
theorem c10_fallback_perfect_match_witness :
    cleanPhoneStr "1\\D23" = "123" ∧
    cleanPhoneStr "12\\D3" = "123" ∧
    (search_contact_by_email_and_phone fallbackWorld "a@b.c"
        (some "1\\D23")).manual_verification = false ∧
    (search_contact_by_email_and_phone fallbackWorld "a@b.c" (some "1\\D23")).review_reason
        = "Perfect match" := by
  have h := c10_fallback_perfect_match fallbackWorld "a@b.c" "1\\D23"
    (found_result fallbackWorld.emp fallbackRow "Email match") "12\\D3"
    (by decide) (by decide) rfl rfl rfl (by decide)
  exact ⟨rfl, rfl, h.2.1, h.2.2⟩

/-- Orchestrator world with no configuration, used where the run never gets
past validation. -/
def plainProcWorld : ProcWorld :=
  { env := fun _ => none
    fetch := fun _ => .error "no fetch"
    ns := sampleWorld
    sheets := .noUrl
    formatDate := fun s => s.getD "" }

/-- Claim C2 counterexample.  A payload with an order id and the unrecognized
store name `Bogus` is rejected before any external call, but with status 500,
not the claimed 400: the `Unknown store name` `ValueError` is caught by the
orchestrator's generic handler (webhook.py lines 395-397), which maps every
caught exception to 500. -/
theorem c2_validation_counterexample :
    process_klaviyo_order plainProcWorld ⟨some ⟨some "1", some "Bogus"⟩⟩
      = (.err "Unknown store name: Bogus" 500, []) ∧
    ProcResult.err "Unknown store name: Bogus" 500
      ≠ ProcResult.err "Unknown store name: Bogus" 400 := by
  refine ⟨rfl, by decide⟩

/-- Claim C2 as amended.  A payload with a falsy order id fails with the
400-status `No order ID` error; one with a falsy store name fails with the
400-status `No store name` error; one with a truthy but unrecognized store
name fails with the `Unknown store name` error at status 500 (the claim said
400).  In each case the effect list is empty: validation fails before any
network call. -/
theorem c2_validation_errors (w : ProcWorld) (kd : KlaviyoPayload)
    (h : optTruthy (kd.data.getD ⟨none, none⟩).order_id = false ∨
         optTruthy (kd.data.getD ⟨none, none⟩).store = false ∨
         store_configs.lookup ((kd.data.getD ⟨none, none⟩).store.getD "") = none) :
    process_klaviyo_order w kd =
      (if optTruthy (kd.data.getD ⟨none, none⟩).order_id = false then
         (ProcResult.err "No order ID found in Klaviyo data" 400, ([] : List Effect))
       else if optTruthy (kd.data.getD ⟨none, none⟩).store = false then
         (ProcResult.err "No store name found in Klaviyo data" 400, [])
       else
         (ProcResult.err
            ("Unknown store name: " ++ ((kd.data.getD ⟨none, none⟩).store.getD "")) 500,
          [])) := by
  by_cases ho : optTruthy (kd.data.getD ⟨none, none⟩).order_id = false
  · simp only [process_klaviyo_order, if_pos ho]
  · by_cases hs : optTruthy (kd.data.getD ⟨none, none⟩).store = false
    · simp only [process_klaviyo_order, if_neg ho, if_pos hs]
    · have hl : store_configs.lookup ((kd.data.getD ⟨none, none⟩).store.getD "") = none := by
        rcases h with h | h | h
        · exact absurd h ho
        · exact absurd h hs
        · exact h
      simp only [process_klaviyo_order, if_neg ho, if_neg hs,
        get_bigcommerce_service_by_store_name, hl]

/-- Claim C2 witness: the unrecognized store name `Bogus` is rejected with
the 500-status unknown-store error and an empty effect list. -/
theorem c2_validation_errors_witness :
    (store_configs.lookup ("Bogus" : String) = none) ∧
    process_klaviyo_order plainProcWorld ⟨some ⟨some "1", some "Bogus"⟩⟩
      = (.err "Unknown store name: Bogus" 500, []) := by
  have h := c2_validation_errors plainProcWorld ⟨some ⟨some "1", some "Bogus"⟩⟩
    (Or.inr (Or.inr rfl))
  refine ⟨rfl, ?_⟩
  rw [h]
  rfl

/-- Claim C8.  On a validated payload whose store resolves and whose order
fetch succeeds, with `cr` the contact-match result for the order's email and
phone: when no sales rep was found (`found` false) or the rep is one of the
unassigned sentinels, the orchestrator returns the `ignored` status carrying
the non-attribution reason, and the effect list contains no ledger write;
when a rep is found and is no sentinel, exactly one ledger write of the
attribution record is issued (carrying the rep name and the verification
flag) and the orchestrator returns the success status with the rep name and
flag — or the 500 sheets error when the write fails, still after issuing the
write. -/
theorem c8_attribution_gating (w : ProcWorld) (oid store : String) (svc : BCService)
    (od : Order) (cr : ContactResult)
    (hoid : oid ≠ "") (hstore : store ≠ "")
    (hsvc : get_bigcommerce_service_by_store_name w.env store = Except.ok svc)
    (hod : get_order_details svc.store_name (w.fetch oid) = Except.ok od)
    (hcr : search_contact_by_email_and_phone w.ns od.email (some od.phone) = cr) :
    (cr.found = false ∨ sentinelRep cr.sales_rep = true →
       process_klaviyo_order w ⟨some ⟨some oid, some store⟩⟩ =
         (.ignored oid cr.review_reason,
          [.orderFetch oid, .crmSearch od.email od.phone])) ∧
    (cr.found = true → sentinelRep cr.sales_rep = false →
       process_klaviyo_order w ⟨some ⟨some oid, some store⟩⟩ =
         (if send_to_sheets w.sheets then
            (ProcResult.success oid (cr.sales_rep.getD "") cr.manual_verification,
             [.orderFetch oid, .crmSearch od.email od.phone,
              .ledgerWrite (mk_sheet_data w store od cr)])
          else
            (ProcResult.err "Failed to send to Google Sheets" 500,
             [.orderFetch oid, .crmSearch od.email od.phone,
              .ledgerWrite (mk_sheet_data w store od cr)])) ∧
       (mk_sheet_data w store od cr).sales_rep = cr.sales_rep.getD "" ∧
       (mk_sheet_data w store od cr).manual_verification = cr.manual_verification) := by
  have ho : optTruthy (some oid) = true := by simp [optTruthy, hoid]
  have hs : optTruthy (some store) = true := by simp [optTruthy, hstore]
  constructor
  · intro hno
    have hcond : (cr.found && !(sentinelRep cr.sales_rep)) = false := by
      rcases hno with h | h <;> simp [h]
    simp [process_klaviyo_order, ho, hs, hsvc, hod, hcr, hcond]
  · intro hf hsen
    have hcond : (cr.found && !(sentinelRep cr.sales_rep)) = true := by
      simp [hf, hsen]
    refine ⟨?_, rfl, rfl⟩
    simp [process_klaviyo_order, ho, hs, hsvc, hod, hcr, hcond]

/-- Environment for the C8 witness: configuration for store 1 only. -/
def c8Env : String → Option String := fun k =>
  if k = "BIGCOMMERCE_STORE1_HASH" then some "h1"
  else if k = "BIGCOMMERCE_STORE1_ACCESS_TOKEN" then some "t1"
  else if k = "BIGCOMMERCE_STORE1_NAME" then some "Wilson US Web"
  else none

/-- Order JSON the C8 witness's fetch oracle returns. -/
def c8OrderJson : OrderJson :=
  { id := "1001"
    billing_address := some ⟨some "a@b.c", some "Jo", some "Smith", some "123"⟩
    date_created := some "2024-01-01T00:00:00Z"
    subtotal_ex_tax := some "10.00", total_ex_tax := none }

/-- Service the C8 witness's store resolution yields. -/
def c8Svc : BCService :=
  { store_hash := "h1", access_token := "t1", store_name := "Wilson US Web" }

/-- Order the C8 witness's fetch yields. -/
def c8Order : Order :=
  { id := "1001", email := "a@b.c", customer_name := "Jo Smith", phone := "123"
    order_date := some "2024-01-01T00:00:00Z", order_total := "10.00"
    store := "Wilson US Web" }

/-- Orchestrator world for the C8 witness: store 1 configured, order fetch
succeeding, an empty CRM (so no contact matches), sheets unconfigured. -/
def c8World : ProcWorld :=
  { env := c8Env
    fetch := fun _ => .ok c8OrderJson
    ns := { db := [], perfectT := .ok, emailT := .ok
            emp := { employees := [], transport := .ok } }
    sheets := .noUrl
    formatDate := fun s => s.getD "" }

/-- Claim C8 witness: an order whose CRM search finds nothing makes the
orchestrator return the `ignored` status with the not-found reason, with a
fetch and a search but no ledger write among the effects. -/
theorem c8_attribution_gating_witness :
    no_record_result.found = false ∧
    process_klaviyo_order c8World ⟨some ⟨some "1001", some "Wilson US"⟩⟩ =
      (.ignored "1001" "No NetSuite record found",
       [.orderFetch "1001", .crmSearch "a@b.c" "123"]) := by
  have h := (c8_attribution_gating c8World "1001" "Wilson US" c8Svc c8Order
      no_record_result (by decide) (by decide) rfl rfl rfl).1 (Or.inl rfl)
  refine ⟨rfl, ?_⟩
  rw [h]
  rfl
